import Mathlib

/-!
Verification of the MotorDashboard component
(src/gym_electric_motor/visualization/motor_dashboard.py).

The dashboard is embedded shallowly: Python exceptions become an error
type, side effects on the plots and on the matplotlib surface become an
explicit event trace, and the mutable object state becomes a record that
every method threads through.  Python integer remainder is Int.fmod
(result has the sign of the divisor), and remainder by zero is a
ZeroDivisionError.
-/

/-- Exceptions that the dashboard code can raise. -/
inductive PyError where
  | typeError
  | assertionError
  | zeroDivisionError
  | attributeError
  deriving Repr, DecidableEq

/-- Non-string element of the plots argument, as the Python type system
sees it: either a class object (possibly a subclass of
MotorDashboardPlot) or an instance (possibly one implementing the whole
Plot capability set reset/step/initialize/update/set_modules).
isPlotSubclass is meaningful for classes, hasPlotCapabilities for
instances. -/
structure PyObj where
  isClass : Bool
  isPlotSubclass : Bool
  hasPlotCapabilities : Bool
  deriving Repr, DecidableEq

/-- An element of the plots list passed to the constructor: the code
distinguishes exactly strings (type(plot) is str) from everything
else. -/
inductive PlotElem where
  | str (s : String)
  | obj (o : PyObj)
  deriving Repr, DecidableEq

/-- A resolved entry of the internal plot list self underscore plots. -/
inductive PlotInstance where
  | rewardPlot
  | actionPlot (tag : String)
  | statePlot (tag : String)
  | external (o : PyObj)
  deriving Repr, DecidableEq

/-- Semantics of the Python method startswith: the characters of the
second string form a leading segment of the characters of the first. -/
def pyStartswith (s p : String) : Bool :=
  p.data.isPrefixOf s.data

/-- Semantics of issubclass(x, mdp.MotorDashboardPlot): raises TypeError
when the first argument is not a class, otherwise reports whether it is
a subclass. -/
def issubclassPlot (o : PyObj) : Except PyError Bool :=
  if o.isClass then Except.ok o.isPlotSubclass else Except.error PyError.typeError

/-- Resolution of one element of the plots argument, following the
constructor body: a string equal to reward gives a RewardPlot, a string
with the action marker at its front gives an ActionPlot, any other
string gives a StatePlot; a non-string first goes through
issubclassPlot and is appended when that returns true, while a false
result fails the assert statement. -/
def resolvePlot : PlotElem → Except PyError PlotInstance
  | PlotElem.str s =>
    if s = "reward" then Except.ok PlotInstance.rewardPlot
    else if pyStartswith s "action_" then Except.ok (PlotInstance.actionPlot s)
    else Except.ok (PlotInstance.statePlot s)
  | PlotElem.obj o => do
    let b ← issubclassPlot o
    if b then Except.ok (PlotInstance.external o) else Except.error PyError.assertionError

/-- Resolution of the whole plots argument, in order, stopping at the
first exception exactly as the Python for loop does. -/
def resolvePlots : List PlotElem → Except PyError (List PlotInstance)
  | [] => Except.ok []
  | e :: es => do
    let p ← resolvePlot e
    let ps ← resolvePlots es
    Except.ok (p :: ps)

/-- The string-tag resolution function extracted from the constructor,
used to state order preservation. -/
def resolveTag (s : String) : PlotInstance :=
  if s = "reward" then PlotInstance.rewardPlot
  else if pyStartswith s "action_" then PlotInstance.actionPlot s
  else PlotInstance.statePlot s

/-- The matplotlib figure handle; it records how many axes were
requested.  A figure object is always truthy in Python, so the
dashboard field holding it is modelled as an Option with None for the
initial null state. -/
structure Figure where
  numAxes : Nat
  deriving Repr, DecidableEq

/-- One matplotlib axis, identified by its position on the figure. -/
structure Axis where
  index : Nat
  deriving Repr, DecidableEq

/-- The second component of the value returned by plt.subplots: a bare
axis when one subplot was requested, an array of axes otherwise.  A
bare axis is not iterable. -/
inductive AxesVal where
  | single (ax : Axis)
  | arr (axs : List Axis)
  deriving Repr, DecidableEq

/-- Semantics of plt.subplots(n, sharex=True): exactly one requested
subplot yields a bare axis, any other count yields an array of axes. -/
def pltSubplots (n : Nat) : Figure × AxesVal :=
  if n = 1 then ({ numAxes := 1 }, AxesVal.single { index := 0 })
  else ({ numAxes := n }, AxesVal.arr ((List.range n).map fun i => { index := i }))

/-- Observable effects of the dashboard on its plots and on the
matplotlib surface, in program order. -/
inductive Event where
  | figureCreated (n : Nat)
  | plotInitialize (i : Nat) (axes : AxesVal)
  | pltPause
  | plotStep (i : Nat) (k : Int)
  | plotUpdate (i : Nat)
  | canvasDraw
  | canvasFlush
  | plotReset (i : Nat)
  | plotSetModules (i : Nat)
  deriving Repr, DecidableEq

/-- Modelled from the spec: the implementations of RewardPlot,
ActionPlot and StatePlot live in motor_dashboard_plots.py, which is not
part of the sources; the spec only exposes them through the
reset/step/initialize/update/set_modules contract.  We model the
per-plot runtime data as the list of step indices the plot has
recorded, with step recording one more index. -/
def plotRecordStep (k : Int) (data : List Int) : List Int := k :: data

/-- Modelled from the spec: reset of a single plot (motor_dashboard_plots.py
is not part of the sources).  Resetting returns the recorded data of a
plot to its initial empty state. -/
def plotResetData (_data : List Int) : List Int := []

/-- The mutable state of a MotorDashboard object.  plotData carries the
spec-modelled per-plot recorded data, one entry per plot, parallel to
plots. -/
structure MotorDashboard where
  update_cycle : Int
  figure : Option Figure
  plots : List PlotInstance
  plotData : List (List Int)
  dark_mode : Bool
  deriving Repr, DecidableEq

/-- The constructor: stores the update cycle and the dark-mode flag
unchecked, leaves the figure null, and resolves the plots argument in
order.  Each freshly resolved plot starts with empty recorded data. -/
def mkMotorDashboard (plots : List PlotElem) (update_cycle : Int) (dark_mode : Bool) :
    Except PyError MotorDashboard := do
  let ps ← resolvePlots plots
  Except.ok
    { update_cycle := update_cycle
      figure := none
      plots := ps
      plotData := ps.map fun _ => []
      dark_mode := dark_mode }

/-- The private initialization method: asserts that at least one plot
is present, creates the figure and its axes, and initializes the plots.
With fewer than two plots the first plot is initialized directly
against the returned value, which for one subplot is a bare axis; with
two or more plots the returned value is iterated in a zip, which would
raise TypeError were it a bare axis. -/
def MotorDashboard._initializeFig (d : MotorDashboard) :
    List Event × Except PyError MotorDashboard :=
  if d.plots.length > 0 then
    let (fig, axes) := pltSubplots d.plots.length
    if d.plots.length < 2 then
      ([Event.figureCreated d.plots.length, Event.plotInitialize 0 axes, Event.pltPause],
       Except.ok { d with figure := some fig })
    else
      match axes with
      | AxesVal.arr axs =>
        (Event.figureCreated d.plots.length ::
           ((axs.take d.plots.length).enum.map fun p =>
             Event.plotInitialize p.1 (AxesVal.single p.2)) ++ [Event.pltPause],
         Except.ok { d with figure := some fig })
      | AxesVal.single _ =>
        ([Event.figureCreated d.plots.length], Except.error PyError.typeError)
  else ([], Except.error PyError.assertionError)

/-- The private update method: every plot redraws its own content, then
the canvas of the figure is used; under the NbAgg backend an extra draw
precedes the flush.  Accessing the canvas of a null figure raises
AttributeError. -/
def MotorDashboard._update (d : MotorDashboard) (backend : String) :
    List Event × Except PyError Unit :=
  let evs := (List.range d.plots.length).map Event.plotUpdate
  match d.figure with
  | none => (evs, Except.error PyError.attributeError)
  | some _ =>
    (evs ++ (if backend = "NbAgg" then [Event.canvasDraw] else []) ++ [Event.canvasFlush],
     Except.ok ())

/-- Python remainder: raises ZeroDivisionError on a zero divisor and
otherwise returns the remainder with the sign of the divisor, which is
Int.fmod. -/
def pyMod (a b : Int) : Except PyError Int :=
  if b = 0 then Except.error PyError.zeroDivisionError else Except.ok (a.fmod b)

/-- The step method: initializes the figure first when it is still
null, forwards the step tuple to every plot in order, and triggers the
batched redraw exactly when the Python remainder of k plus one by the
update cycle is zero. -/
def MotorDashboard.step (d : MotorDashboard) (backend : String) (k : Int) :
    List Event × Except PyError MotorDashboard :=
  let (evs0, r0) := if d.figure = none then d._initializeFig else ([], Except.ok d)
  match r0 with
  | Except.error e => (evs0, Except.error e)
  | Except.ok d1 =>
    let evs1 := (List.range d1.plots.length).map fun i => Event.plotStep i k
    let d2 := { d1 with plotData := d1.plotData.map (plotRecordStep k) }
    match pyMod (k + 1) d2.update_cycle with
    | Except.error e => (evs0 ++ evs1, Except.error e)
    | Except.ok r =>
      if r = 0 then
        let (evs2, r2) := d2._update backend
        match r2 with
        | Except.error e => (evs0 ++ evs1 ++ evs2, Except.error e)
        | Except.ok _ => (evs0 ++ evs1 ++ evs2, Except.ok d2)
      else (evs0 ++ evs1, Except.ok d2)

/-- The reset method: forwards to the reset of every plot in order and
returns nothing. -/
def MotorDashboard.reset (d : MotorDashboard) : List Event × MotorDashboard :=
  ((List.range d.plots.length).map Event.plotReset,
   { d with plotData := d.plotData.map plotResetData })

/-- The set_modules method: forwards the three modules to every plot in
order. -/
def MotorDashboard.set_modules (d : MotorDashboard) : List Event × MotorDashboard :=
  ((List.range d.plots.length).map Event.plotSetModules, d)

/-- Number of batched redraws recorded in a trace: each execution of
the private update method flushes the canvas exactly once. -/
def redrawCount (evs : List Event) : Nat :=
  evs.countP fun e => e = Event.canvasFlush

/-- Running step over a list of consecutive step indices, stopping at
the first exception. -/
def MotorDashboard.run (d : MotorDashboard) (backend : String) :
    List Int → List Event × Except PyError MotorDashboard
  | [] => ([], Except.ok d)
  | k :: ks =>
    let (evs, r) := d.step backend k
    match r with
    | Except.error e => (evs, Except.error e)
    | Except.ok d1 =>
      let (evs2, r2) := d1.run backend ks
      (evs ++ evs2, r2)

/-- Recognizer for the figure-creation event, used to count how often
the drawing surface is created during a call. -/
def isFigureCreated : Event → Bool
  | Event.figureCreated _ => true
  | _ => false

/-- Number of figure creations recorded in a trace. -/
def figureCreatedCount (evs : List Event) : Nat :=
  evs.countP isFigureCreated

/-- An already-constructed plot object: not a class, but implementing
the whole Plot capability set. -/
def plotInstanceObject : PyObj :=
  { isClass := false, isPlotSubclass := false, hasPlotCapabilities := true }

/-- A class object deriving from MotorDashboardPlot. -/
def plotSubclassObject : PyObj :=
  { isClass := true, isPlotSubclass := true, hasPlotCapabilities := false }

/-- A class object unrelated to MotorDashboardPlot. -/
def nonPlotObject : PyObj :=
  { isClass := true, isPlotSubclass := false, hasPlotCapabilities := false }

theorem resolvePlot_str (s : String) :
    resolvePlot (PlotElem.str s) = Except.ok (resolveTag s) := by
  simp only [resolvePlot, resolveTag]
  split_ifs <;> rfl

theorem resolvePlots_map_str (ss : List String) :
    resolvePlots (ss.map PlotElem.str) = Except.ok (ss.map resolveTag) := by
  induction ss with
  | nil => rfl
  | cons s ss ih =>
    simp [resolvePlots, resolvePlot_str, ih, Bind.bind, Except.bind]

theorem mk_str (ss : List String) (uc : Int) (dm : Bool) :
    mkMotorDashboard (ss.map PlotElem.str) uc dm =
      Except.ok { update_cycle := uc, figure := none, plots := ss.map resolveTag,
                  plotData := (ss.map resolveTag).map fun _ => [], dark_mode := dm } := by
  simp [mkMotorDashboard, resolvePlots_map_str, Bind.bind, Except.bind]

theorem mk_ok_fields {ps : List PlotElem} {uc : Int} {dm : Bool} {d : MotorDashboard}
    (h : mkMotorDashboard ps uc dm = Except.ok d) :
    d.figure = none ∧ d.update_cycle = uc ∧ d.dark_mode = dm := by
  unfold mkMotorDashboard at h
  cases hr : resolvePlots ps with
  | error e => rw [hr] at h; simp [Bind.bind, Except.bind] at h
  | ok l =>
    rw [hr] at h
    simp only [Bind.bind, Except.bind, Except.ok.injEq] at h
    subst h
    exact ⟨rfl, rfl, rfl⟩

theorem initialize_nil (d : MotorDashboard) (h : d.plots = []) :
    d._initializeFig = ([], Except.error PyError.assertionError) := by
  simp [MotorDashboard._initializeFig, h]

theorem initialize_snd (d : MotorDashboard) (h : d.plots ≠ []) :
    (d._initializeFig).2 =
      Except.ok { d with figure := some { numAxes := d.plots.length } } := by
  have hpos : 0 < d.plots.length := List.length_pos.mpr h
  unfold MotorDashboard._initializeFig
  rw [if_pos hpos]
  by_cases h2 : d.plots.length < 2
  · have h1 : d.plots.length = 1 := by omega
    simp [pltSubplots, h1, h2]
  · have h1 : d.plots.length ≠ 1 := by omega
    simp [pltSubplots, h1, h2]

theorem initialize_countFig (d : MotorDashboard) (h : d.plots ≠ []) :
    figureCreatedCount (d._initializeFig).1 = 1 := by
  have hpos : 0 < d.plots.length := List.length_pos.mpr h
  unfold MotorDashboard._initializeFig
  rw [if_pos hpos]
  by_cases h2 : d.plots.length < 2
  · have h1 : d.plots.length = 1 := by omega
    simp [pltSubplots, h1, h2, figureCreatedCount, isFigureCreated, List.countP_cons]
  · have h1 : d.plots.length ≠ 1 := by omega
    simp [pltSubplots, h1, h2, figureCreatedCount, isFigureCreated, List.countP_cons,
      List.countP_append, List.countP_map, Function.comp]

theorem initialize_noflush (d : MotorDashboard) : redrawCount (d._initializeFig).1 = 0 := by
  unfold MotorDashboard._initializeFig
  by_cases hpos : d.plots.length > 0
  · rw [if_pos hpos]
    by_cases h2 : d.plots.length < 2
    · by_cases h1 : d.plots.length = 1 <;>
        simp [pltSubplots, h1, h2, redrawCount, List.countP_cons]
    · have h1 : d.plots.length ≠ 1 := by omega
      simp [pltSubplots, h1, h2, redrawCount, List.countP_cons, List.countP_append,
        List.countP_map, Function.comp]
  · rw [if_neg hpos]
    simp [redrawCount]

theorem step_nil (d : MotorDashboard) (backend : String) (k : Int)
    (hf : d.figure = none) (hps : d.plots = []) :
    d.step backend k = ([], Except.error PyError.assertionError) := by
  simp [MotorDashboard.step, hf, initialize_nil d hps]

theorem initialize_pair (d : MotorDashboard) (hps : d.plots ≠ []) :
    d._initializeFig =
      ((d._initializeFig).1,
        Except.ok { d with figure := some { numAxes := d.plots.length } }) := by
  rw [← initialize_snd d hps]

theorem step_eq_of_some (d : MotorDashboard) (backend : String) (k : Int) (f : Figure)
    (hf : d.figure = some f) (huc : d.update_cycle ≠ 0) :
    d.step backend k =
      (((List.range d.plots.length).map fun i => Event.plotStep i k) ++
        (if (k + 1).fmod d.update_cycle = 0 then
          ((List.range d.plots.length).map Event.plotUpdate) ++
            (if backend = "NbAgg" then [Event.canvasDraw] else []) ++ [Event.canvasFlush]
        else []),
      Except.ok { d with plotData := d.plotData.map (plotRecordStep k) }) := by
  simp only [MotorDashboard.step, hf, pyMod, MotorDashboard._update]
  by_cases hm : (k + 1).fmod d.update_cycle = 0 <;>
    simp [huc, hm, hf]

theorem step_eq_of_none (d : MotorDashboard) (backend : String) (k : Int)
    (hf : d.figure = none) (hps : d.plots ≠ []) (huc : d.update_cycle ≠ 0) :
    d.step backend k =
      ((d._initializeFig).1 ++ (((List.range d.plots.length).map fun i => Event.plotStep i k) ++
        (if (k + 1).fmod d.update_cycle = 0 then
          ((List.range d.plots.length).map Event.plotUpdate) ++
            (if backend = "NbAgg" then [Event.canvasDraw] else []) ++ [Event.canvasFlush]
        else [])),
      Except.ok
        { d with
            figure := some (Figure.mk d.plots.length)
            plotData := d.plotData.map (plotRecordStep k) }) := by
  rcases hI : d._initializeFig with ⟨evs0, r0⟩
  have h1 : r0 = Except.ok { d with figure := some (Figure.mk d.plots.length) } := by
    have h2 := initialize_snd d hps
    rw [hI] at h2
    exact h2
  subst h1
  simp only [MotorDashboard.step, hf, hI, pyMod, MotorDashboard._update]
  by_cases hm : (k + 1).fmod d.update_cycle = 0 <;>
    simp [huc, hm]

theorem step_zero_some (d : MotorDashboard) (backend : String) (k : Int) (f : Figure)
    (hf : d.figure = some f) (huc : d.update_cycle = 0) :
    d.step backend k =
      (((List.range d.plots.length).map fun i => Event.plotStep i k),
        Except.error PyError.zeroDivisionError) := by
  simp [MotorDashboard.step, hf, pyMod, huc]

theorem step_zero_none (d : MotorDashboard) (backend : String) (k : Int)
    (hf : d.figure = none) (hps : d.plots ≠ []) (huc : d.update_cycle = 0) :
    d.step backend k =
      ((d._initializeFig).1 ++ ((List.range d.plots.length).map fun i => Event.plotStep i k),
        Except.error PyError.zeroDivisionError) := by
  rcases hI : d._initializeFig with ⟨evs0, r0⟩
  have h1 : r0 = Except.ok { d with figure := some (Figure.mk d.plots.length) } := by
    have h2 := initialize_snd d hps
    rw [hI] at h2
    exact h2
  subst h1
  simp [MotorDashboard.step, hf, hI, pyMod, huc]

theorem countP_flush_plotStep (k : Int) (l : List Nat) :
    List.countP ((fun e => decide (e = Event.canvasFlush)) ∘ fun i => Event.plotStep i k) l
      = 0 := by
  rw [List.countP_eq_zero]
  intro a _
  simp [Function.comp]

theorem countP_flush_plotUpdate (l : List Nat) :
    List.countP ((fun e => decide (e = Event.canvasFlush)) ∘ Event.plotUpdate) l = 0 := by
  rw [List.countP_eq_zero]
  intro a _
  simp [Function.comp]

theorem countP_fig_plotStep (k : Int) (l : List Nat) :
    List.countP (isFigureCreated ∘ fun i => Event.plotStep i k) l = 0 := by
  rw [List.countP_eq_zero]
  intro a _
  simp [Function.comp, isFigureCreated]

theorem countP_fig_plotUpdate (l : List Nat) :
    List.countP (isFigureCreated ∘ Event.plotUpdate) l = 0 := by
  rw [List.countP_eq_zero]
  intro a _
  simp [Function.comp, isFigureCreated]

theorem step_redrawCount (d : MotorDashboard) (backend : String) (k : Int)
    (hps : d.plots ≠ []) (huc : d.update_cycle ≠ 0) :
    redrawCount (d.step backend k).1 =
      if (k + 1).fmod d.update_cycle = 0 then 1 else 0 := by
  have hini : List.countP (fun e => decide (e = Event.canvasFlush)) (d._initializeFig).1 = 0 :=
    initialize_noflush d
  cases hf : d.figure with
  | none =>
    rw [step_eq_of_none d backend k hf hps huc]
    by_cases hm : (k + 1).fmod d.update_cycle = 0 <;>
      by_cases hb : backend = "NbAgg" <;>
        simp [hm, hb, redrawCount, List.countP_append, List.countP_map, List.countP_cons,
          countP_flush_plotStep, countP_flush_plotUpdate, hini]
  | some f =>
    rw [step_eq_of_some d backend k f hf huc]
    by_cases hm : (k + 1).fmod d.update_cycle = 0 <;>
      by_cases hb : backend = "NbAgg" <;>
        simp [hm, hb, redrawCount, List.countP_append, List.countP_map, List.countP_cons,
          countP_flush_plotStep, countP_flush_plotUpdate]

theorem step_ok_fields (d : MotorDashboard) (backend : String) (k : Int)
    (hps : d.plots ≠ []) (huc : d.update_cycle ≠ 0) :
    ∃ d', (d.step backend k).2 = Except.ok d' ∧ d'.plots = d.plots
      ∧ d'.update_cycle = d.update_cycle ∧ d'.figure ≠ none := by
  cases hf : d.figure with
  | none =>
    rw [step_eq_of_none d backend k hf hps huc]
    exact ⟨_, rfl, rfl, rfl, by simp⟩
  | some f =>
    rw [step_eq_of_some d backend k f hf huc]
    exact ⟨_, rfl, rfl, rfl, by simp [hf]⟩

theorem run_count (backend : String) (ks : List Int) :
    ∀ d : MotorDashboard, d.plots ≠ [] → d.update_cycle ≠ 0 →
      (∃ d', (d.run backend ks).2 = Except.ok d' ∧ d'.plots = d.plots
        ∧ d'.update_cycle = d.update_cycle)
      ∧ redrawCount (d.run backend ks).1 =
          ks.countP fun k => decide ((k + 1).fmod d.update_cycle = 0) := by
  induction ks with
  | nil =>
    intro d hps huc
    exact ⟨⟨d, rfl, rfl, rfl⟩, rfl⟩
  | cons k ks ih =>
    intro d hps huc
    rcases step_ok_fields d backend k hps huc with ⟨d1, hr, hp1, hu1, _⟩
    have hcnt := step_redrawCount d backend k hps huc
    rcases hs : d.step backend k with ⟨evs, r⟩
    rw [hs] at hr hcnt
    have hr' : r = Except.ok d1 := hr
    subst hr'
    rcases ih d1 (hp1 ▸ hps) (hu1 ▸ huc) with ⟨⟨d2, hr2, hp2, hu2⟩, hcount⟩
    rcases hrun : d1.run backend ks with ⟨evs2, r2⟩
    rw [hrun] at hr2 hcount
    have hr2' : r2 = Except.ok d2 := hr2
    subst hr2'
    constructor
    · exact ⟨d2, by simp [MotorDashboard.run, hs, hrun], by rw [hp2, hp1], by rw [hu2, hu1]⟩
    · simp only [MotorDashboard.run, hs, hrun]
      simp only [redrawCount, List.countP_append, List.countP_cons] at *
      rw [hcount, hu1, hcnt]
      by_cases hm : (k + 1).fmod d.update_cycle = 0 <;> simp [hm] <;> omega

theorem countP_range_mod (c : Nat) (hc : 0 < c) :
    ∀ m : Nat, m ≤ c →
      ((List.range m).countP fun j => decide ((j + 1) % c = 0)) =
        if m = c then 1 else 0 := by
  intro m
  induction m with
  | zero => intro _; simp [show ¬((0 : Nat) = c) by omega]
  | succ m ih =>
    intro hm
    have hm' : m ≤ c := Nat.le_of_succ_le hm
    have hlt : m < c := Nat.lt_of_succ_le hm
    rw [List.range_succ, List.countP_append, ih hm', if_neg (Nat.ne_of_lt hlt)]
    by_cases he : m + 1 = c
    · simp [he, List.countP_cons, Nat.mod_self]
    · have hlt2 : m + 1 < c := by omega
      simp [List.countP_cons, Nat.mod_eq_of_lt hlt2, he]

theorem fmod_natCast (j c : Nat) :
    (((j : Int) + 1).fmod (c : Int) = 0) ↔ (j + 1) % c = 0 := by
  have h : ((j : Int) + 1) = ((j + 1 : Nat) : Int) := by push_cast; ring
  rw [h, ← Int.ofNat_fmod]
  exact Int.natCast_eq_zero

/-- C1: a call of step triggers a batched redraw (one canvas flush by
the private update method) exactly when the Python remainder of k plus
one by the update cycle is zero; consequently, on a fresh dashboard a
run over the step indices 0 to update_cycle minus 2 triggers zero
redraws while the run over 0 to update_cycle minus 1 triggers exactly
one. -/
theorem C1_redraw_cadence :
    ∀ (d : MotorDashboard) (backend : String), d.plots ≠ [] →
      (∀ k : Int, d.update_cycle ≠ 0 →
        ((redrawCount (d.step backend k).1 = 1 ↔ (k + 1).fmod d.update_cycle = 0)
          ∧ (redrawCount (d.step backend k).1 = 0 ↔ ¬(k + 1).fmod d.update_cycle = 0)))
      ∧ (∀ c : Nat, 0 < c → d.update_cycle = (c : Int) →
          redrawCount (d.run backend ((List.range (c - 1)).map Int.ofNat)).1 = 0
            ∧ redrawCount (d.run backend ((List.range c).map Int.ofNat)).1 = 1) := by
  intro d backend hps
  constructor
  · intro k huc
    rw [step_redrawCount d backend k hps huc]
    by_cases hm : (k + 1).fmod d.update_cycle = 0 <;> simp [hm]
  · intro c hc hcu
    have huc : d.update_cycle ≠ 0 := by
      rw [hcu]
      exact Int.natCast_ne_zero.mpr hc.ne'
    have hcnt1 := (run_count backend ((List.range (c - 1)).map Int.ofNat) d hps huc).2
    have hcnt2 := (run_count backend ((List.range c).map Int.ofNat) d hps huc).2
    rw [List.countP_map] at hcnt1 hcnt2
    have hfun : ((fun k : Int => decide ((k + 1).fmod d.update_cycle = 0)) ∘ Int.ofNat)
        = fun j : Nat => decide ((j + 1) % c = 0) := by
      funext j
      simp only [Function.comp]
      rw [decide_eq_decide, hcu]
      exact fmod_natCast j c
    rw [hfun] at hcnt1 hcnt2
    rw [hcnt1, hcnt2, countP_range_mod c hc (c - 1) (by omega),
      countP_range_mod c hc c (le_refl c)]
    exact ⟨by rw [if_neg (by omega)], by rw [if_pos rfl]⟩

/-- Witness for C1 at a fresh two-step-cycle dashboard holding one
reward plot: step index 1 triggers a redraw, the run over index 0 alone
triggers none, the run over indices 0 and 1 triggers exactly one. -/
theorem C1_redraw_cadence_witness :
    redrawCount ((MotorDashboard.mk 2 none [PlotInstance.rewardPlot] [[]] false).step
        "agg" 1).1 = 1
    ∧ redrawCount ((MotorDashboard.mk 2 none [PlotInstance.rewardPlot] [[]] false).run
        "agg" ((List.range 1).map Int.ofNat)).1 = 0
    ∧ redrawCount ((MotorDashboard.mk 2 none [PlotInstance.rewardPlot] [[]] false).run
        "agg" ((List.range 2).map Int.ofNat)).1 = 1 := by
  refine ⟨?_, ?_, ?_⟩
  · exact ((C1_redraw_cadence (MotorDashboard.mk 2 none [PlotInstance.rewardPlot] [[]] false)
      "agg" (by simp)).1 1 (by decide)).1.mpr (by decide)
  · exact ((C1_redraw_cadence (MotorDashboard.mk 2 none [PlotInstance.rewardPlot] [[]] false)
      "agg" (by simp)).2 2 (by decide) (by decide)).1
  · exact ((C1_redraw_cadence (MotorDashboard.mk 2 none [PlotInstance.rewardPlot] [[]] false)
      "agg" (by simp)).2 2 (by decide) (by decide)).2

/-- C2: the constructor runs issubclass on every non-string element,
which raises TypeError for any instance, so an already-constructed
object implementing the whole Plot capability set is rejected; only
class objects pass the check, non-subclasses failing the assert.  This
evaluates the code at the failing input of the claim. -/
theorem C2_issubclass_on_instance :
    mkMotorDashboard [PlotElem.obj plotInstanceObject] 1000 false
      = Except.error PyError.typeError
    ∧ plotInstanceObject.isClass = false
    ∧ plotInstanceObject.hasPlotCapabilities = true
    ∧ resolvePlot (PlotElem.obj plotSubclassObject)
        = Except.ok (PlotInstance.external plotSubclassObject)
    ∧ resolvePlot (PlotElem.obj nonPlotObject) = Except.error PyError.assertionError :=
  ⟨rfl, rfl, rfl, rfl, rfl⟩

/-- C3: a freshly constructed dashboard has a null surface handle; the
first successful step creates the surface exactly once and requires at
least one plot; a step on a dashboard whose surface exists keeps the
handle unchanged and creates no surface. -/
theorem C3_surface_created_once :
    (∀ (ps : List PlotElem) (uc : Int) (dm : Bool) (d : MotorDashboard),
        mkMotorDashboard ps uc dm = Except.ok d → d.figure = none)
    ∧ (∀ (d : MotorDashboard) (backend : String) (k : Int) (d' : MotorDashboard),
        d.figure = none → (d.step backend k).2 = Except.ok d' →
        d'.figure = some (Figure.mk d.plots.length)
          ∧ figureCreatedCount (d.step backend k).1 = 1
          ∧ 1 ≤ d.plots.length)
    ∧ (∀ (d : MotorDashboard) (backend : String) (k : Int) (d' : MotorDashboard),
        d.figure ≠ none → (d.step backend k).2 = Except.ok d' →
        d'.figure = d.figure ∧ figureCreatedCount (d.step backend k).1 = 0) := by
  refine ⟨fun ps uc dm d h => (mk_ok_fields h).1, ?_, ?_⟩
  · intro d backend k d' hf hok
    have hps : d.plots ≠ [] := by
      intro hnil
      rw [step_nil d backend k hf hnil] at hok
      simp at hok
    have huc : d.update_cycle ≠ 0 := by
      intro h0
      rw [step_zero_none d backend k hf hps h0] at hok
      simp at hok
    have hfig : List.countP isFigureCreated (d._initializeFig).1 = 1 := initialize_countFig d hps
    rw [step_eq_of_none d backend k hf hps huc] at hok ⊢
    simp only [Except.ok.injEq] at hok
    subst hok
    refine ⟨rfl, ?_, List.length_pos.mpr hps⟩
    by_cases hm : (k + 1).fmod d.update_cycle = 0 <;>
      by_cases hb : backend = "NbAgg" <;>
        simp [hm, hb, figureCreatedCount, isFigureCreated, List.countP_append,
          List.countP_map, List.countP_cons, countP_fig_plotStep, countP_fig_plotUpdate,
          hfig]
  · intro d backend k d' hf hok
    obtain ⟨f, hf'⟩ := Option.ne_none_iff_exists'.mp hf
    have huc : d.update_cycle ≠ 0 := by
      intro h0
      rw [step_zero_some d backend k f hf' h0] at hok
      simp at hok
    rw [step_eq_of_some d backend k f hf' huc] at hok ⊢
    simp only [Except.ok.injEq] at hok
    subst hok
    refine ⟨rfl, ?_⟩
    by_cases hm : (k + 1).fmod d.update_cycle = 0 <;>
      by_cases hb : backend = "NbAgg" <;>
        simp [hm, hb, figureCreatedCount, isFigureCreated, List.countP_append,
          List.countP_map, List.countP_cons, countP_fig_plotStep, countP_fig_plotUpdate]

/-- Witness for C3 on a one-plot dashboard: the first step at index 0
sets the surface handle and records exactly one figure creation. -/
theorem C3_surface_created_once_witness :
    (MotorDashboard.mk 1000 (some (Figure.mk 1)) [PlotInstance.rewardPlot] [[0]] false).figure
        = some (Figure.mk 1)
      ∧ figureCreatedCount
          ((MotorDashboard.mk 1000 none [PlotInstance.rewardPlot] [[]] false).step "agg" 0).1
          = 1
      ∧ 1 ≤ (MotorDashboard.mk 1000 none [PlotInstance.rewardPlot] [[]] false).plots.length :=
  C3_surface_created_once.2.1 (MotorDashboard.mk 1000 none [PlotInstance.rewardPlot] [[]] false)
    "agg" 0 (MotorDashboard.mk 1000 (some (Figure.mk 1)) [PlotInstance.rewardPlot] [[0]] false)
    rfl rfl

/-- C4: construction with an empty plot list succeeds and yields a
dashboard with no surface; only the first step, attempting surface
creation, fails the assert that at least one plot is present. -/
theorem C4_empty_plots :
    ∀ (uc : Int) (dm : Bool) (backend : String) (k : Int),
      mkMotorDashboard [] uc dm = Except.ok (MotorDashboard.mk uc none [] [] dm)
      ∧ (MotorDashboard.mk uc none [] [] dm).step backend k
          = ([], Except.error PyError.assertionError)
      ∧ (MotorDashboard.mk uc none [] [] dm)._initializeFig
          = ([], Except.error PyError.assertionError) := by
  intro uc dm backend k
  exact ⟨rfl, step_nil (MotorDashboard.mk uc none [] [] dm) backend k rfl rfl, rfl⟩

/-- C5: the tag list reward, action_0, speed resolves to exactly a
reward plot, an action plot and a state plot in input order; in general
the reward tag gives a RewardPlot, a tag with the action marker at its
front gives an ActionPlot, and any other string a StatePlot, with
resolution preserving input order. -/
theorem C5_tag_list :
    mkMotorDashboard
        [PlotElem.str "reward", PlotElem.str "action_0", PlotElem.str "speed"] 1000 false
      = Except.ok (MotorDashboard.mk 1000 none
          [PlotInstance.rewardPlot, PlotInstance.actionPlot "action_0",
            PlotInstance.statePlot "speed"]
          [[], [], []] false)
    ∧ (∀ s : String, s = "reward" →
        resolvePlot (PlotElem.str s) = Except.ok PlotInstance.rewardPlot)
    ∧ (∀ s : String, s ≠ "reward" → pyStartswith s "action_" = true →
        resolvePlot (PlotElem.str s) = Except.ok (PlotInstance.actionPlot s))
    ∧ (∀ s : String, s ≠ "reward" → pyStartswith s "action_" = false →
        resolvePlot (PlotElem.str s) = Except.ok (PlotInstance.statePlot s))
    ∧ (∀ ss : List String, resolvePlots (ss.map PlotElem.str)
        = Except.ok (ss.map resolveTag)) := by
  refine ⟨rfl, ?_, ?_, ?_, resolvePlots_map_str⟩
  · intro s hs
    subst hs
    rfl
  · intro s hs hsw
    simp [resolvePlot, hs, hsw]
  · intro s hs hsw
    simp [resolvePlot, hs, hsw]

/-- Witness for C5 at the three tag shapes. -/
theorem C5_tag_list_witness :
    resolvePlot (PlotElem.str "reward") = Except.ok PlotInstance.rewardPlot
    ∧ resolvePlot (PlotElem.str "action_1") = Except.ok (PlotInstance.actionPlot "action_1")
    ∧ resolvePlot (PlotElem.str "torque") = Except.ok (PlotInstance.statePlot "torque") :=
  ⟨C5_tag_list.2.1 "reward" rfl,
   C5_tag_list.2.2.1 "action_1" (by decide) (by decide),
   C5_tag_list.2.2.2.1 "torque" (by decide) (by decide)⟩

/-- C6: reset forwards to every plot in input order, leaves the surface
handle, the plot list and the update cycle unchanged, is idempotent on
the dashboard state, and on a freshly constructed dashboard leaves the
surface uncreated; its type shows it raises nothing. -/
theorem C6_reset_behavior :
    ∀ d : MotorDashboard,
      (d.reset).1 = (List.range d.plots.length).map Event.plotReset
      ∧ ((d.reset).2.reset).2 = (d.reset).2
      ∧ (d.reset).2.figure = d.figure
      ∧ (d.reset).2.plots = d.plots
      ∧ (d.reset).2.update_cycle = d.update_cycle
      ∧ (∀ (ps : List PlotElem) (uc : Int) (dm : Bool),
          mkMotorDashboard ps uc dm = Except.ok d → (d.reset).2.figure = none) := by
  intro d
  refine ⟨rfl, ?_, rfl, rfl, rfl, ?_⟩
  · simp [MotorDashboard.reset, List.map_map, Function.comp, plotResetData]
  · intro ps uc dm hmk
    have hfig := (mk_ok_fields hmk).1
    simp [MotorDashboard.reset, hfig]

/-- Witness for C6: resetting a freshly constructed empty dashboard
leaves the surface handle null. -/
theorem C6_reset_behavior_witness :
    ((MotorDashboard.mk 5 none [] [] false).reset).2.figure = none :=
  (C6_reset_behavior (MotorDashboard.mk 5 none [] [] false)).2.2.2.2.2 [] 5 false rfl

/-- C7: with exactly one plot, surface creation succeeds: the bare axis
returned by the plotting backend for a single subplot is handed
directly to the only plot by the dedicated below-two branch, so the
non-iterable single axis never gets iterated. -/
theorem C7_single_plot :
    ∀ d : MotorDashboard, d.plots.length = 1 →
      (d._initializeFig).2 = Except.ok { d with figure := some (Figure.mk 1) }
      ∧ (d._initializeFig).1 =
          [Event.figureCreated 1, Event.plotInitialize 0 (AxesVal.single (Axis.mk 0)),
            Event.pltPause]
      ∧ (pltSubplots 1).2 = AxesVal.single (Axis.mk 0) := by
  intro d h
  have hps : d.plots ≠ [] := by
    intro hnil
    rw [hnil] at h
    simp at h
  refine ⟨?_, ?_, rfl⟩
  · have h2 := initialize_snd d hps
    rw [h] at h2
    exact h2
  · unfold MotorDashboard._initializeFig
    simp [h, pltSubplots]

/-- Witness for C7 on a dashboard holding one state plot. -/
theorem C7_single_plot_witness :
    ((MotorDashboard.mk 1000 none [PlotInstance.statePlot "speed"] [[]] false)._initializeFig).2
      = Except.ok (MotorDashboard.mk 1000 (some (Figure.mk 1))
          [PlotInstance.statePlot "speed"] [[]] false) :=
  (C7_single_plot (MotorDashboard.mk 1000 none [PlotInstance.statePlot "speed"] [[]] false)
    rfl).1

/-- C8: step never fails by dereferencing a missing surface: its only
failure modes are the missing-plot assert and the zero-divisor
remainder; on a first call the trace puts all surface and axis
initialization before every plot step; the private update method would
raise AttributeError exactly when the surface handle is null, which
step rules out by initializing first. -/
theorem C8_update_never_missing_surface :
    ∀ (d : MotorDashboard) (backend : String) (k : Int),
      (∀ e : PyError, (d.step backend k).2 = Except.error e →
        e = PyError.assertionError ∨ e = PyError.zeroDivisionError)
      ∧ (d.figure = none → ∀ d' : MotorDashboard, (d.step backend k).2 = Except.ok d' →
          ∃ tail, (d.step backend k).1 =
            (d._initializeFig).1 ++
              (((List.range d.plots.length).map fun i => Event.plotStep i k) ++ tail)
            ∧ (d._initializeFig).2 =
                Except.ok { d with figure := some (Figure.mk d.plots.length) })
      ∧ (d.figure = none → (d._update backend).2 = Except.error PyError.attributeError) := by
  intro d backend k
  refine ⟨?_, ?_, ?_⟩
  · intro e herr
    by_cases hf : d.figure = none
    · by_cases hps : d.plots = []
      · rw [step_nil d backend k hf hps] at herr
        simp only [Except.error.injEq] at herr
        exact Or.inl herr.symm
      · by_cases huc : d.update_cycle = 0
        · rw [step_zero_none d backend k hf hps huc] at herr
          simp only [Except.error.injEq] at herr
          exact Or.inr herr.symm
        · rw [step_eq_of_none d backend k hf hps huc] at herr
          simp at herr
    · obtain ⟨f, hf'⟩ := Option.ne_none_iff_exists'.mp hf
      by_cases huc : d.update_cycle = 0
      · rw [step_zero_some d backend k f hf' huc] at herr
        simp only [Except.error.injEq] at herr
        exact Or.inr herr.symm
      · rw [step_eq_of_some d backend k f hf' huc] at herr
        simp at herr
  · intro hf d' hok
    have hps : d.plots ≠ [] := by
      intro hnil
      rw [step_nil d backend k hf hnil] at hok
      simp at hok
    have huc : d.update_cycle ≠ 0 := by
      intro h0
      rw [step_zero_none d backend k hf hps h0] at hok
      simp at hok
    rw [step_eq_of_none d backend k hf hps huc]
    exact ⟨_, rfl, initialize_snd d hps⟩
  · intro hf
    simp [MotorDashboard._update, hf]

/-- Witness for C8: a zero-cycle dashboard fails with the divisor
error, accepted by the classification, and the private update method
on a surface-less dashboard raises AttributeError. -/
theorem C8_update_never_missing_surface_witness :
    (PyError.zeroDivisionError = PyError.assertionError
      ∨ PyError.zeroDivisionError = PyError.zeroDivisionError)
    ∧ ((MotorDashboard.mk 5 none [PlotInstance.rewardPlot] [[]] false)._update "agg").2
        = Except.error PyError.attributeError :=
  ⟨(C8_update_never_missing_surface
      (MotorDashboard.mk 0 (some (Figure.mk 1)) [PlotInstance.rewardPlot] [[]] false)
      "agg" 3).1 PyError.zeroDivisionError rfl,
   (C8_update_never_missing_surface
      (MotorDashboard.mk 5 none [PlotInstance.rewardPlot] [[]] false) "agg" 3).2.2 rfl⟩

/-- C9: the constructor accepts any update cycle, including zero,
without validation; on a dashboard holding at least one plot every step
call with a zero update cycle fails with ZeroDivisionError at the
redraw-cadence check, and its trace ends exactly with the forwarding of
the step tuple to every plot. -/
theorem C9_zero_update_cycle :
    (∀ (ss : List String) (uc : Int) (dm : Bool),
      ∃ d, mkMotorDashboard (ss.map PlotElem.str) uc dm = Except.ok d
        ∧ d.update_cycle = uc)
    ∧ (∀ (d : MotorDashboard) (backend : String) (k : Int),
        d.update_cycle = 0 → d.plots ≠ [] →
        (d.step backend k).2 = Except.error PyError.zeroDivisionError
          ∧ (d.step backend k).1 =
            (if d.figure = none then (d._initializeFig).1 else []) ++
              (List.range d.plots.length).map fun i => Event.plotStep i k) := by
  constructor
  · intro ss uc dm
    exact ⟨_, mk_str ss uc dm, rfl⟩
  · intro d backend k huc hps
    cases hf : d.figure with
    | none =>
      rw [step_zero_none d backend k hf hps huc]
      simp [hf]
    | some f =>
      rw [step_zero_some d backend k f hf huc]
      simp [hf]

/-- Witness for C9: a one-plot zero-cycle dashboard with an existing
surface fails its step with ZeroDivisionError after stepping its plot. -/
theorem C9_zero_update_cycle_witness :
    ((MotorDashboard.mk 0 (some (Figure.mk 1)) [PlotInstance.rewardPlot] [[]] false).step
        "agg" 7).2 = Except.error PyError.zeroDivisionError :=
  ((C9_zero_update_cycle.2
    (MotorDashboard.mk 0 (some (Figure.mk 1)) [PlotInstance.rewardPlot] [[]] false)
    "agg" 7 rfl (by simp)).1)

/-- C10: any string tag that is not reward and does not carry the
action marker resolves silently to a StatePlot, and construction from
any list of string tags always succeeds. -/
theorem C10_any_string_accepted :
    (∀ s : String, s ≠ "reward" → pyStartswith s "action_" = false →
        resolvePlot (PlotElem.str s) = Except.ok (PlotInstance.statePlot s))
    ∧ (∀ (ss : List String) (uc : Int) (dm : Bool),
        mkMotorDashboard (ss.map PlotElem.str) uc dm =
          Except.ok (MotorDashboard.mk uc none (ss.map resolveTag)
            ((ss.map resolveTag).map fun _ => []) dm)) := by
  constructor
  · intro s hs hsw
    simp [resolvePlot, hs, hsw]
  · intro ss uc dm
    exact mk_str ss uc dm

/-- Witness for C10 at a misspelled state name. -/
theorem C10_any_string_accepted_witness :
    resolvePlot (PlotElem.str "speeed") = Except.ok (PlotInstance.statePlot "speeed") :=
  C10_any_string_accepted.1 "speeed" (by decide) (by decide)
